import Mathlib

/-
Verification development for the business-analytics repository.

The repository has two Python modules:
  * `main.py` — a linear metrics/alerts/report pipeline
    (`processing_node`, `analysis_node`, `recommendation_node`, `output_node`)
    over a `BusinessState` dict;
  * `business-agent.py` — a conversation controller (`process_input`) over a
    stage/selected_date state, driving an analysis step (`analyze_business`)
    against a fixed dataset `BUSINESS_DATA`.

Python numbers are modelled as exact rationals (`ℚ`, or `ℤ` where the source
only ever holds integers).  Python's `round(x, 2)` on floats is modelled as
round-half-to-even on exact rationals (`round2` below); this is faithful except
at values whose binary floating-point representation sits on a different side
of a decimal tie, and every concrete value used in this file avoids ties.
A Python expression that raises (`ZeroDivisionError`, `KeyError`) is modelled
by an `Option` result being `none`.
-/

/-- Round a rational to the nearest integer, ties to the even integer
(the rounding mode of Python's `round`). -/
def roundHalfEven (q : ℚ) : ℤ :=
  let f := ⌊q⌋
  if q - f < 1/2 then f
  else if q - f > 1/2 then f + 1
  else if f % 2 = 0 then f else f + 1

/-- Model of Python's `round(x, 2)`: round to two decimal places. -/
def round2 (q : ℚ) : ℚ := (roundHalfEven (q * 100) : ℚ) / 100

/-- A JSON-like value tree: the hierarchical text format of the repository's
reports (attribute-value pairs, nested mappings, ordered sequences).
`json.dumps`/`json.loads` in the source serialize exactly this data model. -/
inductive Json where
  | null : Json
  | bool : Bool → Json
  | num : ℚ → Json
  | str : String → Json
  | arr : List Json → Json
  | obj : List (String × Json) → Json

/-- Key lookup in a JSON object (what `d["key"]` does on a parsed JSON dict). -/
def jsonField (j : Json) (k : String) : Option Json :=
  match j with
  | Json.obj fields => fields.lookup k
  | _ => none

/-- Extract a list of strings from a list of JSON values; `none` if any
element is not a string. -/
def strList : List Json → Option (List String)
  | [] => some []
  | Json.str s :: rest => (strList rest).map (s :: ·)
  | _ => none

/-- Model of Python's `str.lower()` restricted to ASCII (the only case
classification the source's token sets exercise). -/
def pyLower (s : String) : String := String.mk (s.data.map Char.toLower)

/-- The whitespace set of Python's `str.strip()` (ASCII portion). -/
def isPySpace (c : Char) : Bool :=
  c == ' ' || c == '\t' || c == '\n' || c == '\r' || c == '\x0b' || c == '\x0c'

/-- Model of Python's `str.strip()`: remove leading and trailing whitespace. -/
def pyStrip (s : String) : String :=
  String.mk (((s.data.dropWhile isPySpace).reverse.dropWhile isPySpace).reverse)

namespace Analytics

/-- A day's business record, the shape of `today_data` / `yesterday_data`
dicts in `main.py` (`input_node` supplies `revenue`, `cost`, `customers`,
`marketing_cost`). -/
structure DailyRecord where
  revenue : ℚ
  cost : ℚ
  customers : ℚ
  marketing_cost : ℚ
deriving DecidableEq

/-- The `metrics` dict computed by `processing_node` in `main.py`. -/
structure Metrics where
  today_profit : ℚ
  yesterday_profit : ℚ
  today_cac : ℚ
  yesterday_cac : ℚ
  revenue_change : ℚ
  cost_change : ℚ
  profit_change : ℚ
  cac_change : ℚ
  customer_growth : ℚ
  today_roi : ℚ
  yesterday_roi : ℚ
deriving DecidableEq

/-- The `business_summary` sub-dict of the final report (`output_node`). -/
structure BusinessSummary where
  date : String
  profit_loss_status : String
  total_profit : ℚ
  revenue : ℚ
  cost : ℚ
  customers : ℚ
deriving DecidableEq

/-- The `key_metrics` sub-dict of the final report (`output_node`); the four
percentage-change entries are strings (`f"{value}%"` in the source). -/
structure KeyMetrics where
  cac_today : ℚ
  roi_today : ℚ
  revenue_change : String
  cost_change : String
  profit_change : String
  customer_growth : String
deriving DecidableEq

/-- The `final_report` dict assembled by `output_node` in `main.py`. -/
structure Report where
  business_summary : BusinessSummary
  key_metrics : KeyMetrics
  alerts : List String
  recommendations : List String
  action_priority : String
deriving DecidableEq

/-- The `BusinessState` TypedDict of `main.py`. -/
structure BusinessState where
  today_data : DailyRecord
  yesterday_data : DailyRecord
  metrics : Metrics
  profit_status : String
  alerts : List String
  recommendations : List String
  final_report : Report
deriving DecidableEq

/-- `input_node` of `main.py`: overwrites the state with the hard-coded
sample records. -/
def input_node (s : BusinessState) : BusinessState :=
  { s with
    today_data := { revenue := 12000, cost := 8000, customers := 150, marketing_cost := 2000 }
    yesterday_data := { revenue := 10000, cost := 7500, customers := 120, marketing_cost := 1800 } }

/-- `processing_node` of `main.py` (lines 65-108).  The divisions for
`revenue_change`, `cost_change` and `customer_growth` (source lines 80, 81, 84)
are NOT guarded in the source: when `yesterday["revenue"]`,
`yesterday["cost"]` or `yesterday["customers"]` is 0 the Python code raises
`ZeroDivisionError`, modelled here as `none`.  The guarded computations
(`cac`, `profit_change`, `cac_change`, `roi`) mirror the source's conditional
expressions literally, and every stored metric except the two profits goes
through `round(_, 2)` (modelled by `round2`). -/
def processing_node (s : BusinessState) : Option BusinessState :=
  let today := s.today_data
  let yesterday := s.yesterday_data
  let today_profit := today.revenue - today.cost
  let yesterday_profit := yesterday.revenue - yesterday.cost
  let today_cac := if today.customers > 0 then today.marketing_cost / today.customers else 0
  let yesterday_cac := if yesterday.customers > 0 then yesterday.marketing_cost / yesterday.customers else 0
  if yesterday.revenue = 0 ∨ yesterday.cost = 0 ∨ yesterday.customers = 0 then
    none
  else
    let revenue_change := (today.revenue - yesterday.revenue) / yesterday.revenue * 100
    let cost_change := (today.cost - yesterday.cost) / yesterday.cost * 100
    let profit_change := if yesterday_profit ≠ 0 then (today_profit - yesterday_profit) / |yesterday_profit| * 100 else 0
    let cac_change := if yesterday_cac > 0 then (today_cac - yesterday_cac) / yesterday_cac * 100 else 0
    let customer_growth := (today.customers - yesterday.customers) / yesterday.customers * 100
    let today_roi := if today.cost > 0 then today_profit / today.cost * 100 else 0
    let yesterday_roi := if yesterday.cost > 0 then yesterday_profit / yesterday.cost * 100 else 0
    some { s with
      metrics :=
        { today_profit := today_profit
          yesterday_profit := yesterday_profit
          today_cac := round2 today_cac
          yesterday_cac := round2 yesterday_cac
          revenue_change := round2 revenue_change
          cost_change := round2 cost_change
          profit_change := round2 profit_change
          cac_change := round2 cac_change
          customer_growth := round2 customer_growth
          today_roi := round2 today_roi
          yesterday_roi := round2 yesterday_roi }
      profit_status := if today_profit > 0 then "positive" else "negative" }

/-- Alert text appended when `today_profit <= 0`. -/
def criticalLossAlert : String := "🚨 CRITICAL: You have losses today!"

/-- Alert text appended when `cac_change > 20`. -/
def cacGrowthAlert : String := "⚠️ WARNING: Customer acquisition cost increased by more than 20%"

/-- Alert text appended when `cac_change <= 20` but `today_cac > 50`. -/
def cacLevelAlert : String := "⚠️ ALERT: Customer acquisition cost is higher than optimal"

/-- Alert text appended when `cost_change > revenue_change` and `revenue_change > 0`. -/
def costOutpacingAlert : String := "⚠️ CAUTION: Costs are growing faster than revenue"

/-- Alert text appended when `revenue_change < -10`. -/
def revenueDropAlert : String := "🚨 URGENT: Revenue decreased by more than 10%"

/-- Alert text appended when `today_roi < 10`. -/
def lowRoiAlert : String := "⚠️ LOW ROI: Return on investment is less than 10%"

/-- `analysis_node` of `main.py` (lines 111-142): starts from an empty list and
appends one alert per matching rule, in source order; the two CAC rules form a
single `if`/`elif`. -/
def analysis_node (s : BusinessState) : BusinessState :=
  { s with alerts :=
      (if s.metrics.today_profit ≤ 0 then [criticalLossAlert] else []) ++
      (if s.metrics.cac_change > 20 then [cacGrowthAlert]
        else if s.metrics.today_cac > 50 then [cacLevelAlert] else []) ++
      (if s.metrics.cost_change > s.metrics.revenue_change ∧ s.metrics.revenue_change > 0 then [costOutpacingAlert] else []) ++
      (if s.metrics.revenue_change < -10 then [revenueDropAlert] else []) ++
      (if s.metrics.today_roi < 10 then [lowRoiAlert] else []) }

/-- `output_node` of `main.py` (lines 228-256): assembles `final_report` from
the state and leaves every other state field untouched (`{**state, ...}`).
The four percentage entries of `key_metrics` are string-formatted
(`f"{value}%"`), modelled as `toString value ++ "%"`. -/
def output_node (s : BusinessState) : BusinessState :=
  { s with final_report :=
      { business_summary :=
          { date := "today"
            profit_loss_status := s.profit_status
            total_profit := s.metrics.today_profit
            revenue := s.today_data.revenue
            cost := s.today_data.cost
            customers := s.today_data.customers }
        key_metrics :=
          { cac_today := s.metrics.today_cac
            roi_today := s.metrics.today_roi
            revenue_change := toString s.metrics.revenue_change ++ "%"
            cost_change := toString s.metrics.cost_change ++ "%"
            profit_change := toString s.metrics.profit_change ++ "%"
            customer_growth := toString s.metrics.customer_growth ++ "%" }
        alerts := s.alerts
        recommendations := s.recommendations
        action_priority :=
          if s.metrics.today_profit ≤ 0 then "high"
          else if s.alerts.length > 0 then "medium"
          else "low" } }

/-- Serialization of a `final_report` to the hierarchical format: exactly the
dict structure literally built by `output_node` (and printed by
`json.dumps(report, indent=2)` in `display_results` /
`test_json_output_structure`). -/
def reportToJson (r : Report) : Json :=
  Json.obj [
    ("business_summary", Json.obj [
      ("date", Json.str r.business_summary.date),
      ("profit_loss_status", Json.str r.business_summary.profit_loss_status),
      ("total_profit", Json.num r.business_summary.total_profit),
      ("revenue", Json.num r.business_summary.revenue),
      ("cost", Json.num r.business_summary.cost),
      ("customers", Json.num r.business_summary.customers)]),
    ("key_metrics", Json.obj [
      ("cac_today", Json.num r.key_metrics.cac_today),
      ("roi_today", Json.num r.key_metrics.roi_today),
      ("revenue_change", Json.str r.key_metrics.revenue_change),
      ("cost_change", Json.str r.key_metrics.cost_change),
      ("profit_change", Json.str r.key_metrics.profit_change),
      ("customer_growth", Json.str r.key_metrics.customer_growth)]),
    ("alerts", Json.arr (r.alerts.map Json.str)),
    ("recommendations", Json.arr (r.recommendations.map Json.str)),
    ("action_priority", Json.str r.action_priority)]

/-- Parsing a report back out of the hierarchical format (the inverse reading
of the structure `json.loads` returns for a serialized report). -/
def jsonToReport : Json → Option Report
  | Json.obj [
      ("business_summary", Json.obj [
        ("date", Json.str date),
        ("profit_loss_status", Json.str pls),
        ("total_profit", Json.num tp),
        ("revenue", Json.num rev),
        ("cost", Json.num c),
        ("customers", Json.num cu)]),
      ("key_metrics", Json.obj [
        ("cac_today", Json.num ct),
        ("roi_today", Json.num rt),
        ("revenue_change", Json.str rc),
        ("cost_change", Json.str cc),
        ("profit_change", Json.str pc),
        ("customer_growth", Json.str cg)]),
      ("alerts", Json.arr as),
      ("recommendations", Json.arr rs),
      ("action_priority", Json.str ap)] =>
    match strList as, strList rs with
    | some alerts, some recs =>
      some ⟨⟨date, pls, tp, rev, c, cu⟩, ⟨ct, rt, rc, cc, pc, cg⟩, alerts, recs, ap⟩
    | _, _ => none
  | _ => none

/-- The sample `today_data` of `input_node`. -/
def sampleToday : DailyRecord := ⟨12000, 8000, 150, 2000⟩

/-- The sample `yesterday_data` of `input_node`. -/
def sampleYesterday : DailyRecord := ⟨10000, 7500, 120, 1800⟩

/-- All-zero metrics, the shape of an untouched `metrics` dict slot. -/
def emptyMetrics : Metrics := ⟨0, 0, 0, 0, 0, 0, 0, 0, 0, 0, 0⟩

/-- An empty report, the shape of an untouched `final_report` dict slot. -/
def emptyReport : Report := ⟨⟨"", "", 0, 0, 0, 0⟩, ⟨0, 0, "", "", "", ""⟩, [], [], ""⟩

/-- The state after `input_node` on an initial empty state. -/
def sampleState : BusinessState :=
  ⟨sampleToday, sampleYesterday, emptyMetrics, "", [], [], emptyReport⟩

/-- The expected result of `processing_node` on `sampleState`. -/
def processedSample : BusinessState :=
  { sampleState with
    metrics := ⟨4000, 2500, 13.33, 15, 20, 6.67, 60, -11.11, 25, 50, 33.33⟩
    profit_status := "positive" }

/-- `sampleState` with yesterday's revenue zeroed. -/
def zeroRevYesterdayState : BusinessState :=
  { sampleState with yesterday_data := ⟨0, 7500, 120, 1800⟩ }

/-- `sampleState` with yesterday's customer count zeroed. -/
def zeroCustYesterdayState : BusinessState :=
  { sampleState with yesterday_data := ⟨10000, 7500, 0, 1800⟩ }

/-- A state whose metrics show a loss and which carries one alert. -/
def lossMetricsState : BusinessState :=
  { sampleState with
    metrics := { emptyMetrics with today_profit := -2000 }
    alerts := [criticalLossAlert] }

/-- A metrics snapshot triggering the loss, CAC-growth (suppressing
CAC-level), revenue-drop and low-ROI alerts. -/
def alertDemoState : BusinessState :=
  { sampleState with metrics := ⟨-2000, 2500, 60, 15, -15, 5, 0, 30, 0, 5, 0⟩ }

end Analytics

namespace Chat

/-- A per-day record of the `BUSINESS_DATA` dataset in `business-agent.py`
(`revenue`, `cost`, `customers`; all integers in the source). -/
structure DayRecord where
  revenue : ℤ
  cost : ℤ
  customers : ℤ
deriving DecidableEq

/-- The fixed dataset `BUSINESS_DATA` of `business-agent.py`, in its source
(already date-sorted) order. -/
def BUSINESS_DATA : List (String × DayRecord) := [
  ("2024-01-01", ⟨8000, 5000, 80⟩),
  ("2024-01-02", ⟨10000, 6000, 100⟩),
  ("2024-01-03", ⟨7500, 4800, 75⟩),
  ("2024-01-04", ⟨11000, 7000, 110⟩),
  ("2024-01-05", ⟨9500, 6200, 95⟩),
  ("2024-01-06", ⟨5000, 7000, 50⟩),
  ("2024-01-07", ⟨12000, 7500, 120⟩),
  ("2024-01-08", ⟨9000, 5800, 90⟩),
  ("2024-01-09", ⟨8500, 5500, 85⟩),
  ("2024-01-10", ⟨10500, 6500, 105⟩)]

/-- Membership of a date string in the dataset's key set
(`user_input in BUSINESS_DATA` in the source). -/
def memKey (d : String) : Bool := (BUSINESS_DATA.lookup d).isSome

/-- Split a character list at a separator character. -/
def splitOnChar (c : Char) : List Char → List (List Char)
  | [] => [[]]
  | x :: xs =>
    match splitOnChar c xs with
    | [] => [[]]
    | g :: gs => if x = c then [] :: g :: gs else (x :: g) :: gs

/-- Value of a decimal digit character, if it is one. -/
def charDigit (c : Char) : Option ℕ :=
  if '0' ≤ c ∧ c ≤ '9' then some (c.toNat - 48) else none

/-- Value of a non-empty all-digit character list. -/
def digitsVal (l : List Char) : Option ℕ :=
  if l = [] then none
  else l.foldl (fun acc c => acc.bind fun n => (charDigit c).map fun d => n * 10 + d) (some 0)

/-- Gregorian leap-year test. -/
def isLeap (y : ℕ) : Bool := y % 4 == 0 && (y % 100 != 0 || y % 400 == 0)

/-- Days in a month of the Gregorian calendar. -/
def daysInMonth (y m : ℕ) : ℕ :=
  if m = 2 then (if isLeap y then 29 else 28)
  else if m = 4 ∨ m = 6 ∨ m = 9 ∨ m = 11 then 30
  else 31

/-- Model of `datetime.strptime(s, "%Y-%m-%d")`: parse and validate a
year-month-day date string; `none` where the source raises `ValueError`. -/
def parseDate (s : String) : Option (ℕ × ℕ × ℕ) :=
  match splitOnChar '-' s.data with
  | [ys, ms, ds] =>
    match digitsVal ys, digitsVal ms, digitsVal ds with
    | some y, some m, some d =>
      if 1 ≤ m ∧ m ≤ 12 ∧ 1 ≤ d ∧ d ≤ daysInMonth y m then some (y, m, d) else none
    | _, _, _ => none
  | _ => none

/-- The character of a decimal digit. -/
def digitChar (d : ℕ) : Char := Char.ofNat (48 + d)

/-- Zero-padded two-digit rendering (`strftime` `%m` / `%d`). -/
def fmt2 (n : ℕ) : String :=
  if n < 10 then String.mk ['0', digitChar n]
  else String.mk [digitChar (n / 10 % 10), digitChar (n % 10)]

/-- Zero-padded four-digit rendering (`strftime` `%Y`; all years in this
development are below 10000, the fallback branch is never exercised). -/
def fmt4 (n : ℕ) : String :=
  if n < 10000 then
    String.mk [digitChar (n / 1000 % 10), digitChar (n / 100 % 10),
               digitChar (n / 10 % 10), digitChar (n % 10)]
  else toString n

/-- Model of `(datetime.strptime(s, "%Y-%m-%d") - timedelta(days=1)).strftime("%Y-%m-%d")`:
the previous calendar day of a date string.  In the source this is computed
only after `s` was found in `BUSINESS_DATA`, so the parse always succeeds
there; an unparseable input (where `strptime` would raise) is mapped to "". -/
def prevDateStr (s : String) : String :=
  match parseDate s with
  | some (y, m, d) =>
    if d > 1 then fmt4 y ++ "-" ++ fmt2 m ++ "-" ++ fmt2 (d - 1)
    else if m > 1 then fmt4 y ++ "-" ++ fmt2 (m - 1) ++ "-" ++ fmt2 (daysInMonth y (m - 1))
    else fmt4 (y - 1) ++ "-12-31"
  | none => ""

/-- Last three digits, zero-padded (one comma group). -/
def pad3 (n : ℕ) : String :=
  if n < 10 then "00" ++ toString n
  else if n < 100 then "0" ++ toString n
  else toString n

/-- Comma-grouped rendering of a natural number (Python's `f"{n:,}"`). -/
def commaNat (n : ℕ) : String :=
  if _h : n < 1000 then toString n
  else commaNat (n / 1000) ++ "," ++ pad3 (n % 1000)
termination_by n
decreasing_by exact Nat.div_lt_self (by omega) (by omega)

/-- Comma-grouped rendering of an integer. -/
def commaInt (n : ℤ) : String :=
  if n < 0 then "-" ++ commaNat n.natAbs else commaNat n.natAbs

/-- `get_data_table()` of `business-agent.py`: the fixed dataset table
(the source iterates `sorted(BUSINESS_DATA.items())`; `BUSINESS_DATA` above
is already in sorted key order). -/
def get_data_table : String :=
  "📊 **Available Business Data:**\n```\nDate        | Revenue ($) | Cost ($) | Customers\n------------|------------|----------|----------" ++
  String.join (BUSINESS_DATA.map fun p =>
    "\n" ++ p.1 ++ " | $" ++ commaInt p.2.revenue ++ "      | $" ++ commaInt p.2.cost ++
    "    | " ++ toString p.2.customers) ++
  "\n```"

/-- Greeting reply of `process_input` at stage "greeting". -/
def greetingMsg : String :=
  "Hello! I\x27m your Business Analytics Assistant. 🤖\n        \nTo analyze your sales and cost data, please select a date from the available data.\n\n" ++
  get_data_table ++
  "\n\n💡 Please enter the date you\x27d like to analyze in YYYY-MM-DD format (e.g., 2024-01-05)"

/-- Error reply when the selected date has no previous-day data. -/
def noPrevDataMsg : String :=
  "⚠️ Sorry, no data available for the previous day. Please select a date that has previous day data for comparison."

/-- Error reply when the entered date is not in the dataset. -/
def invalidDateMsg : String :=
  "❌ The entered date is not in the available data. Please select one of the dates from the table."

/-- Confirmation reply after a valid date selection. -/
def dateSelectedMsg (d : String) : String :=
  "✅ Date " ++ d ++ " selected.\n\nDo you want me to analyze the business data for this date? (yes/no)"

/-- Reply when analysis is confirmed. -/
def startAnalysisMsg : String := "🔍 Starting business data analysis..."

/-- Reply re-emitting the table after a negative answer at confirm_analysis. -/
def reenterDateMsg : String :=
  get_data_table ++ "\n\n💡 Please enter a new date you\x27d like to analyze:"

/-- Reply re-emitting the table after an affirmative answer at complete. -/
def newAnalysisDateMsg : String :=
  get_data_table ++ "\n\n💡 Please enter the new date you\x27d like to analyze:"

/-- Re-prompt for an unclassified answer at confirm_analysis. -/
def clarifyConfirmMsg : String :=
  "Please answer with \x27yes\x27 or \x27no\x27. Do you want me to analyze the business data?"

/-- Re-prompt for an unclassified answer at complete. -/
def clarifyCompleteMsg : String :=
  "Please answer with \x27yes\x27 or \x27no\x27. Would you like to analyze another date?"

/-- Goodbye reply at complete on a negative answer. -/
def goodbyeMsg : String := "Thank you for using Business Analytics Chat! 👋"

/-- The controller-owned part of the `State` TypedDict of `business-agent.py`
(`stage` and `selected_date`; `messages` accumulate separately via
`add_messages` and `analysis_result` is produced by the analysis step). -/
structure AgentState where
  stage : String
  selected_date : String
deriving DecidableEq

/-- One turn's outcome: the updated controller state (the source returns a
dict of updates that LangGraph merges into the state — fields absent from the
returned dict are carried over unchanged here) and the messages emitted this
turn (each returned `"messages": [...]` list, appended by `add_messages`). -/
structure TurnResult where
  state : AgentState
  msgs : List String
deriving DecidableEq

/-- The affirmative token set of `process_input`. -/
def affirmTokens : List String := ["yes", "y", "yeah", "sure"]

/-- The negative token set of `process_input`. -/
def negTokens : List String := ["no", "n", "nope"]

/-- `process_input` of `business-agent.py` (lines 76-162).  The source reads
`user_input` out of the state dict and strips it once at the top; it is an
explicit argument here.  `process_input_enhanced` (lines 333-544) performs the
identical stage/selected_date updates and differs only in the text of the one
emitted message (LLM-generated, with these exact strings as fallbacks). -/
def process_input (s : AgentState) (rawInput : String) : TurnResult :=
  let user_input := pyStrip rawInput
  if s.stage = "greeting" then
    ⟨⟨"date_selection", s.selected_date⟩, [greetingMsg]⟩
  else if s.stage = "date_selection" then
    if memKey user_input then
      if memKey (prevDateStr user_input) = false then
        ⟨⟨"date_selection", s.selected_date⟩, [noPrevDataMsg]⟩
      else
        ⟨⟨"confirm_analysis", user_input⟩, [dateSelectedMsg user_input]⟩
    else
      ⟨⟨"date_selection", s.selected_date⟩, [invalidDateMsg]⟩
  else if s.stage = "confirm_analysis" then
    if pyLower user_input ∈ affirmTokens then
      ⟨⟨"analysis", s.selected_date⟩, [startAnalysisMsg]⟩
    else if pyLower user_input ∈ negTokens then
      ⟨⟨"date_selection", ""⟩, [reenterDateMsg]⟩
    else
      ⟨⟨"confirm_analysis", s.selected_date⟩, [clarifyConfirmMsg]⟩
  else if s.stage = "complete" then
    if pyLower user_input ∈ affirmTokens then
      ⟨⟨"date_selection", ""⟩, [newAnalysisDateMsg]⟩
    else if pyLower user_input ∈ negTokens then
      ⟨⟨"end", s.selected_date⟩, [goodbyeMsg]⟩
    else
      ⟨⟨"complete", s.selected_date⟩, [clarifyCompleteMsg]⟩
  else ⟨s, []⟩

/-- The fallback structure built inside `analyze_business` when the LLM's
structured-data response fails `json.loads` (source lines 232-242). -/
def fallbackParseJson (current : DayRecord) : Json :=
  Json.obj [
    ("profit_loss_status", Json.str (if current.revenue - current.cost > 0 then "positive" else "negative")),
    ("current_profit", Json.num ((current.revenue - current.cost : ℤ) : ℚ)),
    ("alerts", Json.arr [Json.str "Unable to parse LLM JSON response"]),
    ("recommendations", Json.arr [Json.str "Review analysis manually"]),
    ("key_metrics", Json.obj [("error", Json.str "JSON parsing failed")])]

/-- Model of Python's `f"{x:.1f}"` on exact rationals (same half-even caveat
as `round2`). -/
def fmt1f (q : ℚ) : String :=
  let n := roundHalfEven (q * 10)
  (if n < 0 then "-" else "") ++ toString (n.natAbs / 10) ++ "." ++ toString (n.natAbs % 10)

/-- The fallback structure built when the LLM call itself raises (source
lines 244-278).  The two percentage divisions divide by the previous day's
revenue/cost, which are positive for every dataset record (a zero would raise
in the source; `ℚ` division by zero silently yields 0, a branch never
exercised on this dataset). -/
def llmFailFallbackJson (current previous : DayRecord) : Json :=
  let current_profit := ((current.revenue - current.cost : ℤ) : ℚ)
  let revenue_change := ((current.revenue - previous.revenue : ℤ) : ℚ) / (previous.revenue : ℚ) * 100
  let cost_change := ((current.cost - previous.cost : ℤ) : ℚ) / (previous.cost : ℚ) * 100
  Json.obj [
    ("profit_loss_status", Json.str (if current_profit > 0 then "positive" else "negative")),
    ("current_profit", Json.num current_profit),
    ("alerts", Json.arr [Json.str "LLM unavailable - basic analysis provided"]),
    ("recommendations", Json.arr [Json.str "Review detailed financials", Json.str "Check operational efficiency"]),
    ("key_metrics", Json.obj [
      ("revenue_change", Json.str (fmt1f revenue_change ++ "%")),
      ("cost_change", Json.str (fmt1f cost_change ++ "%")),
      ("profit", Json.num current_profit)])]

/-- Outcome of the Narrative Oracle's two calls inside `analyze_business`:
either both LLM calls returned (`ok parsed`, where `parsed` is the result of
attempting `json.loads` on the structured response), or an LLM call raised
(`failed`). -/
inductive OracleOutcome where
  | ok : Option Json → OracleOutcome
  | failed : OracleOutcome

/-- The `json_output` value of `analyze_business`: the parsed structured
response if `json.loads` succeeded, otherwise the local fallback. -/
def json_output (parsed : Option Json) (current : DayRecord) : Json :=
  match parsed with
  | some j => j
  | none => fallbackParseJson current

/-- `analyze_business` of `business-agent.py` (lines 165-287), restricted to
the modelled fields.  When the stage is "analysis" it looks up the selected
date and its previous day in `BUSINESS_DATA` unguarded (`KeyError`, i.e.
`none`, if absent), sets the stage to "complete" and stores the
`analysis_result`; at any other stage the source returns the state unchanged
(modelled as `some (s, none)`, no result produced). -/
def analyze_business (s : AgentState) (outcome : OracleOutcome) : Option (AgentState × Option Json) :=
  if s.stage = "analysis" then
    match BUSINESS_DATA.lookup s.selected_date, BUSINESS_DATA.lookup (prevDateStr s.selected_date) with
    | some current, some previous =>
      some (⟨"complete", s.selected_date⟩,
        some (match outcome with
          | OracleOutcome.ok parsed => json_output parsed current
          | OracleOutcome.failed => llmFailFallbackJson current previous))
    | _, _ => none
  else some (s, none)

/-- One controller step: either `process_input` on some user input, or the
automatic `analyze_business` transition the graph routes to at stage
"analysis". -/
def StepRel (s t : AgentState) : Prop :=
  (∃ input, t = (process_input s input).state) ∨
  (∃ outcome res, analyze_business s outcome = some (t, res))

/-- The initial conversation state of the source's main loop. -/
def initialState : AgentState := ⟨"greeting", ""⟩

/-- States reachable from the initial state by controller steps. -/
def Reachable (s : AgentState) : Prop := Relation.ReflTransGen StepRel initialState s

/-- A date that is in the dataset and whose previous calendar day is too. -/
def DateOk (d : String) : Prop := memKey d = true ∧ memKey (prevDateStr d) = true

/-- The controller invariant: at stages "confirm_analysis" and "analysis" the
selected date and its previous day are dataset keys. -/
def ControllerInv (s : AgentState) : Prop :=
  (s.stage = "confirm_analysis" ∨ s.stage = "analysis") → DateOk s.selected_date

end Chat

/-
## Theorems
-/

namespace Analytics

/-- Evaluation of `processing_node` on the sample data of `input_node`. -/
theorem processing_sampleState_eval :
    processing_node sampleState = some processedSample := by
  simp only [processing_node, sampleState, processedSample, sampleToday, sampleYesterday,
    emptyMetrics, emptyReport]
  norm_num [round2, roundHalfEven, Option.some.injEq, BusinessState.mk.injEq, Metrics.mk.injEq]

end Analytics

namespace Analytics

/-- Claim C1 (amended): the Metrics Engine is total only when yesterday's
revenue, cost and customers are all nonzero — exactly then it returns a
Metrics value (otherwise the unguarded divisions of `revenue_change`,
`cost_change` and `customer_growth` raise) — and each returned *_change field
equals its source formula rounded to two decimal places, with `profit_change`
0 when yesterday's profit is 0 and `cac_change` 0 when yesterday's CAC is not
positive. -/
theorem metrics_engine_division_guards (s : BusinessState) :
    (processing_node s = none ↔
      (s.yesterday_data.revenue = 0 ∨ s.yesterday_data.cost = 0 ∨ s.yesterday_data.customers = 0)) ∧
    (∀ t, processing_node s = some t →
      t.metrics.revenue_change =
        round2 ((s.today_data.revenue - s.yesterday_data.revenue) / s.yesterday_data.revenue * 100) ∧
      t.metrics.cost_change =
        round2 ((s.today_data.cost - s.yesterday_data.cost) / s.yesterday_data.cost * 100) ∧
      t.metrics.customer_growth =
        round2 ((s.today_data.customers - s.yesterday_data.customers) / s.yesterday_data.customers * 100) ∧
      t.metrics.profit_change =
        round2 (if s.yesterday_data.revenue - s.yesterday_data.cost ≠ 0 then
          ((s.today_data.revenue - s.today_data.cost) - (s.yesterday_data.revenue - s.yesterday_data.cost)) /
            |s.yesterday_data.revenue - s.yesterday_data.cost| * 100
          else 0) ∧
      t.metrics.cac_change =
        round2 (if (if s.yesterday_data.customers > 0 then s.yesterday_data.marketing_cost / s.yesterday_data.customers else 0) > 0 then
          ((if s.today_data.customers > 0 then s.today_data.marketing_cost / s.today_data.customers else 0) -
            (if s.yesterday_data.customers > 0 then s.yesterday_data.marketing_cost / s.yesterday_data.customers else 0)) /
            (if s.yesterday_data.customers > 0 then s.yesterday_data.marketing_cost / s.yesterday_data.customers else 0) * 100
          else 0)) := by
  constructor
  · simp only [processing_node]
    split
    next h => simp [h]
    next h => simp [h]
  · intro t ht
    simp only [processing_node] at ht
    split at ht
    next => exact absurd ht (by simp)
    next =>
      cases Option.some.inj ht
      exact ⟨rfl, rfl, rfl, rfl, rfl⟩

/-- Witness for C1: the amended theorem applied to the sample data. -/
theorem metrics_engine_division_guards_witness :
    processedSample.metrics.revenue_change =
      round2 ((sampleState.today_data.revenue - sampleState.yesterday_data.revenue) / sampleState.yesterday_data.revenue * 100) ∧
    processedSample.metrics.cost_change =
      round2 ((sampleState.today_data.cost - sampleState.yesterday_data.cost) / sampleState.yesterday_data.cost * 100) ∧
    processedSample.metrics.customer_growth =
      round2 ((sampleState.today_data.customers - sampleState.yesterday_data.customers) / sampleState.yesterday_data.customers * 100) ∧
    processedSample.metrics.profit_change =
      round2 (if sampleState.yesterday_data.revenue - sampleState.yesterday_data.cost ≠ 0 then
        ((sampleState.today_data.revenue - sampleState.today_data.cost) - (sampleState.yesterday_data.revenue - sampleState.yesterday_data.cost)) /
          |sampleState.yesterday_data.revenue - sampleState.yesterday_data.cost| * 100
        else 0) ∧
    processedSample.metrics.cac_change =
      round2 (if (if sampleState.yesterday_data.customers > 0 then sampleState.yesterday_data.marketing_cost / sampleState.yesterday_data.customers else 0) > 0 then
        ((if sampleState.today_data.customers > 0 then sampleState.today_data.marketing_cost / sampleState.today_data.customers else 0) -
          (if sampleState.yesterday_data.customers > 0 then sampleState.yesterday_data.marketing_cost / sampleState.yesterday_data.customers else 0)) /
          (if sampleState.yesterday_data.customers > 0 then sampleState.yesterday_data.marketing_cost / sampleState.yesterday_data.customers else 0) * 100
        else 0) :=
  (metrics_engine_division_guards sampleState).2 processedSample processing_sampleState_eval

/-- Counterexample to C1 as stated: with yesterday's revenue 0 (a valid
non-negative input) the engine raises instead of returning metrics with
`revenue_change = 0`; and on the sample data the stored `cost_change` is the
rounded 6.67, not the exact formula value 20/3. -/
theorem metrics_engine_division_guards_cex :
    processing_node zeroRevYesterdayState = none ∧
    ((processing_node sampleState).map fun t => t.metrics.cost_change) = some (6.67 : ℚ) ∧
    (6.67 : ℚ) ≠ (8000 - 7500) / (7500 : ℚ) * 100 := by
  refine ⟨?_, ?_, by norm_num⟩
  · simp only [processing_node, zeroRevYesterdayState, sampleState, sampleToday, sampleYesterday,
      emptyMetrics, emptyReport]
    norm_num
  · rw [processing_sampleState_eval]
    rfl

end Analytics

/-- `round(0, 2)` is 0. -/
theorem round2_zero : round2 0 = 0 := by norm_num [round2, roundHalfEven]

namespace Analytics

/-- Claim C3 (amended): when the engine returns, profit is exactly
revenue − cost for each day, `cac` and `roi` equal the guarded source
formulas rounded to two decimal places (today's cac is exactly 0 when today's
customer count is 0, today's roi exactly 0 when today's cost is 0), and
`profit_status` is "positive" iff today's profit is positive; but when
yesterday's customer count is 0 the engine raises (in `customer_growth`)
instead of returning a Metrics value with `yesterday_cac = 0`. -/
theorem metrics_engine_formulas (s : BusinessState) :
    (∀ t, processing_node s = some t →
      t.metrics.today_profit = s.today_data.revenue - s.today_data.cost ∧
      t.metrics.yesterday_profit = s.yesterday_data.revenue - s.yesterday_data.cost ∧
      t.metrics.today_cac =
        round2 (if s.today_data.customers > 0 then s.today_data.marketing_cost / s.today_data.customers else 0) ∧
      t.metrics.yesterday_cac =
        round2 (if s.yesterday_data.customers > 0 then s.yesterday_data.marketing_cost / s.yesterday_data.customers else 0) ∧
      (s.today_data.customers = 0 → t.metrics.today_cac = 0) ∧
      t.metrics.today_roi =
        round2 (if s.today_data.cost > 0 then (s.today_data.revenue - s.today_data.cost) / s.today_data.cost * 100 else 0) ∧
      t.metrics.yesterday_roi =
        round2 (if s.yesterday_data.cost > 0 then (s.yesterday_data.revenue - s.yesterday_data.cost) / s.yesterday_data.cost * 100 else 0) ∧
      (s.today_data.cost = 0 → t.metrics.today_roi = 0) ∧
      t.profit_status = (if s.today_data.revenue - s.today_data.cost > 0 then "positive" else "negative") ∧
      (t.profit_status = "positive" ↔ t.metrics.today_profit > 0)) ∧
    (s.yesterday_data.customers = 0 → processing_node s = none) := by
  constructor
  · intro t ht
    simp only [processing_node] at ht
    split at ht
    next => exact absurd ht (by simp)
    next h =>
      cases Option.some.inj ht
      refine ⟨rfl, rfl, rfl, rfl, ?_, rfl, rfl, ?_, rfl, ?_⟩
      · intro hc
        simp [hc, round2_zero]
      · intro hc
        simp [hc, round2_zero]
      · split
        next h2 => simp [h2]
        next h2 => simp [h2]
  · intro hc
    simp only [processing_node]
    split
    next => rfl
    next h => exact absurd (Or.inr (Or.inr hc)) h

/-- Witness for C3: the amended theorem applied to the sample data. -/
theorem metrics_engine_formulas_witness :
    processedSample.metrics.today_profit = sampleState.today_data.revenue - sampleState.today_data.cost ∧
    processedSample.metrics.yesterday_profit = sampleState.yesterday_data.revenue - sampleState.yesterday_data.cost ∧
    processedSample.metrics.today_cac =
      round2 (if sampleState.today_data.customers > 0 then sampleState.today_data.marketing_cost / sampleState.today_data.customers else 0) ∧
    processedSample.metrics.yesterday_cac =
      round2 (if sampleState.yesterday_data.customers > 0 then sampleState.yesterday_data.marketing_cost / sampleState.yesterday_data.customers else 0) ∧
    (sampleState.today_data.customers = 0 → processedSample.metrics.today_cac = 0) ∧
    processedSample.metrics.today_roi =
      round2 (if sampleState.today_data.cost > 0 then (sampleState.today_data.revenue - sampleState.today_data.cost) / sampleState.today_data.cost * 100 else 0) ∧
    processedSample.metrics.yesterday_roi =
      round2 (if sampleState.yesterday_data.cost > 0 then (sampleState.yesterday_data.revenue - sampleState.yesterday_data.cost) / sampleState.yesterday_data.cost * 100 else 0) ∧
    (sampleState.today_data.cost = 0 → processedSample.metrics.today_roi = 0) ∧
    processedSample.profit_status =
      (if sampleState.today_data.revenue - sampleState.today_data.cost > 0 then "positive" else "negative") ∧
    (processedSample.profit_status = "positive" ↔ processedSample.metrics.today_profit > 0) :=
  (metrics_engine_formulas sampleState).1 processedSample processing_sampleState_eval

/-- Counterexample to C3 as stated: on the sample data `today_cac` is the
rounded 13.33, not the exact 2000/150; and with yesterday's customers 0 the
engine raises instead of returning metrics with `yesterday_cac = 0`. -/
theorem metrics_engine_formulas_cex :
    ((processing_node sampleState).map fun t => t.metrics.today_cac) = some (13.33 : ℚ) ∧
    (13.33 : ℚ) ≠ 2000 / 150 ∧
    processing_node zeroCustYesterdayState = none := by
  refine ⟨?_, by norm_num, ?_⟩
  · rw [processing_sampleState_eval]
    rfl
  · simp only [processing_node, zeroCustYesterdayState, sampleState, sampleToday, sampleYesterday,
      emptyMetrics, emptyReport]
    norm_num

/-- Claim C2: the assembled report's `action_priority` is "high" iff
`today_profit ≤ 0` (whatever the alert list is); otherwise it is "medium" iff
the alert list is non-empty; otherwise it is "low". -/
theorem action_priority_rule (s : BusinessState) :
    ((output_node s).final_report.action_priority = "high" ↔ s.metrics.today_profit ≤ 0) ∧
    (¬s.metrics.today_profit ≤ 0 →
      (((output_node s).final_report.action_priority = "medium") ↔ s.alerts ≠ [])) ∧
    (¬s.metrics.today_profit ≤ 0 → s.alerts = [] →
      (output_node s).final_report.action_priority = "low") := by
  by_cases h : s.metrics.today_profit ≤ 0
  · simp [output_node, h]
  · rcases halt : s.alerts with _ | ⟨a, rest⟩
    · simp [output_node, h, halt]
    · simp [output_node, h, halt]

/-- Witness for C2: a loss day with a non-empty alert list still gets
priority "high". -/
theorem action_priority_rule_witness :
    (output_node lossMetricsState).final_report.action_priority = "high" :=
  ((action_priority_rule lossMetricsState).1).mpr (by norm_num [lossMetricsState, emptyMetrics])

end Analytics

namespace Analytics

/-- Claim C4: the Alert Evaluator produces exactly the ordered concatenation
of the five rule checks (with the two CAC rules mutually exclusive, growth
checked first), hence at most 5 alerts, and it is a deterministic function of
the Metrics alone. -/
theorem alert_evaluator_rules (s : BusinessState) :
    (analysis_node s).alerts =
      ((if s.metrics.today_profit ≤ 0 then [criticalLossAlert] else []) ++
       (if s.metrics.cac_change > 20 then [cacGrowthAlert]
         else if s.metrics.today_cac > 50 then [cacLevelAlert] else []) ++
       (if s.metrics.cost_change > s.metrics.revenue_change ∧ s.metrics.revenue_change > 0 then [costOutpacingAlert] else []) ++
       (if s.metrics.revenue_change < -10 then [revenueDropAlert] else []) ++
       (if s.metrics.today_roi < 10 then [lowRoiAlert] else [])) ∧
    ¬(cacGrowthAlert ∈ (analysis_node s).alerts ∧ cacLevelAlert ∈ (analysis_node s).alerts) ∧
    (analysis_node s).alerts.length ≤ 5 ∧
    (∀ s₂ : BusinessState, s₂.metrics = s.metrics →
      (analysis_node s₂).alerts = (analysis_node s).alerts) := by
  refine ⟨rfl, ?_, ?_, ?_⟩
  · simp only [analysis_node, List.mem_append]
    split_ifs <;>
      simp [criticalLossAlert, cacGrowthAlert, cacLevelAlert, costOutpacingAlert,
        revenueDropAlert, lowRoiAlert]
  · simp only [analysis_node]
    split_ifs <;> simp
  · intro s₂ h
    simp only [analysis_node, h]

/-- Witness for C4: on a snapshot firing loss, CAC-growth, revenue-drop and
low-ROI, the list is exactly those four alerts (CAC-level suppressed). -/
theorem alert_evaluator_rules_witness :
    (analysis_node alertDemoState).alerts =
      [criticalLossAlert, cacGrowthAlert, revenueDropAlert, lowRoiAlert] ∧
    (analysis_node alertDemoState).alerts.length ≤ 5 ∧
    (analysis_node alertDemoState).alerts = (analysis_node alertDemoState).alerts := by
  have h := alert_evaluator_rules alertDemoState
  refine ⟨?_, h.2.2.1, h.2.2.2 alertDemoState rfl⟩
  rw [h.1]
  norm_num [alertDemoState, sampleState]

/-- Claim C8: the report's four percent fields are the string form of the
corresponding numeric metric with a literal "%" appended, and assembling the
report leaves the metrics and every other state field unchanged. -/
theorem report_formatting_frame (s : BusinessState) :
    (output_node s).final_report.key_metrics.revenue_change = toString s.metrics.revenue_change ++ "%" ∧
    (output_node s).final_report.key_metrics.cost_change = toString s.metrics.cost_change ++ "%" ∧
    (output_node s).final_report.key_metrics.profit_change = toString s.metrics.profit_change ++ "%" ∧
    (output_node s).final_report.key_metrics.customer_growth = toString s.metrics.customer_growth ++ "%" ∧
    (output_node s).metrics = s.metrics ∧
    (output_node s).today_data = s.today_data ∧
    (output_node s).yesterday_data = s.yesterday_data ∧
    (output_node s).profit_status = s.profit_status ∧
    (output_node s).alerts = s.alerts ∧
    (output_node s).recommendations = s.recommendations :=
  ⟨rfl, rfl, rfl, rfl, rfl, rfl, rfl, rfl, rfl, rfl⟩

end Analytics

/-- Reading back a serialized string list succeeds. -/
theorem strList_map_str (l : List String) : strList (l.map Json.str) = some l := by
  induction l with
  | nil => rfl
  | cons a rest ih => simp [strList, ih]

namespace Analytics

/-- Claim C9: serializing any report to the hierarchical format and parsing
it back yields the same report. -/
theorem report_roundtrip (r : Report) :
    jsonToReport (reportToJson r) = some r := by
  obtain ⟨⟨d, pls, tp, rev, c, cu⟩, ⟨ct, rt, rc, cc, pc, cg⟩, alerts, recs, ap⟩ := r
  show (match strList (alerts.map Json.str), strList (recs.map Json.str) with
    | some as, some rs =>
      some (⟨⟨d, pls, tp, rev, c, cu⟩, ⟨ct, rt, rc, cc, pc, cg⟩, as, rs, ap⟩ : Report)
    | _, _ => none) =
    some ⟨⟨d, pls, tp, rev, c, cu⟩, ⟨ct, rt, rc, cc, pc, cg⟩, alerts, recs, ap⟩
  rw [strList_map_str, strList_map_str]

end Analytics

namespace Chat

/-- A negative token is never an affirmative token. -/
theorem neg_not_affirm {x : String} (h : x ∈ negTokens) : x ∉ affirmTokens := by
  fin_cases h <;> decide

/-- Claim C5: on unclassified input — a non-key date at date_selection, or a
token in neither the affirmative nor the negative set at confirm_analysis or
complete — the controller keeps the stage, keeps selected_date, and emits
exactly one re-prompt message. -/
theorem unclassified_input_self_loop (s : AgentState) (input : String)
    (h : (s.stage = "date_selection" ∧ memKey (pyStrip input) = false) ∨
         ((s.stage = "confirm_analysis" ∨ s.stage = "complete") ∧
          pyLower (pyStrip input) ∉ affirmTokens ∧ pyLower (pyStrip input) ∉ negTokens)) :
    (process_input s input).state.stage = s.stage ∧
    (process_input s input).state.selected_date = s.selected_date ∧
    (process_input s input).msgs.length = 1 := by
  rcases h with ⟨hst, hmem⟩ | ⟨hst | hst, hna, hnn⟩
  · simp [process_input, hst, hmem]
  · simp [process_input, hst, hna, hnn]
  · simp [process_input, hst, hna, hnn]

/-- Witness for C5: the spec's Scenario C (malformed date "2024-13-45" at
date_selection) and Scenario D (input "maybe" at confirm_analysis). -/
theorem unclassified_input_self_loop_witness :
    ((process_input ⟨"date_selection", ""⟩ "2024-13-45").state.stage = "date_selection" ∧
     (process_input ⟨"date_selection", ""⟩ "2024-13-45").state.selected_date = "" ∧
     (process_input ⟨"date_selection", ""⟩ "2024-13-45").msgs.length = 1) ∧
    ((process_input ⟨"confirm_analysis", "2024-01-05"⟩ "maybe").state.stage = "confirm_analysis" ∧
     (process_input ⟨"confirm_analysis", "2024-01-05"⟩ "maybe").state.selected_date = "2024-01-05" ∧
     (process_input ⟨"confirm_analysis", "2024-01-05"⟩ "maybe").msgs.length = 1) :=
  ⟨unclassified_input_self_loop ⟨"date_selection", ""⟩ "2024-13-45" (Or.inl ⟨rfl, by decide⟩),
   unclassified_input_self_loop ⟨"confirm_analysis", "2024-01-05"⟩ "maybe"
     (Or.inr ⟨Or.inl rfl, by decide, by decide⟩)⟩

/-- Claim C6: at confirm_analysis, a (case-insensitively) affirmative token
moves to stage "analysis" with selected_date unchanged, and a negative token
moves back to "date_selection" with selected_date cleared and the data table
re-emitted in the reply. -/
theorem confirm_analysis_transitions (s : AgentState) (input : String)
    (hstage : s.stage = "confirm_analysis") :
    (pyLower (pyStrip input) ∈ affirmTokens →
      process_input s input = ⟨⟨"analysis", s.selected_date⟩, [startAnalysisMsg]⟩) ∧
    (pyLower (pyStrip input) ∈ negTokens →
      process_input s input =
        ⟨⟨"date_selection", ""⟩,
         [get_data_table ++ "\n\n💡 Please enter a new date you\x27d like to analyze:"]⟩) := by
  constructor
  · intro ha
    simp [process_input, hstage, ha]
  · intro hn
    simp [process_input, hstage, neg_not_affirm hn, hn, reenterDateMsg]

/-- Witness for C6: " YES" (stripped, lowered) confirms, "No" declines. -/
theorem confirm_analysis_transitions_witness :
    process_input ⟨"confirm_analysis", "2024-01-02"⟩ " YES" =
      ⟨⟨"analysis", "2024-01-02"⟩, [startAnalysisMsg]⟩ ∧
    process_input ⟨"confirm_analysis", "2024-01-02"⟩ "No" =
      ⟨⟨"date_selection", ""⟩,
       [get_data_table ++ "\n\n💡 Please enter a new date you\x27d like to analyze:"]⟩ :=
  ⟨(confirm_analysis_transitions ⟨"confirm_analysis", "2024-01-02"⟩ " YES" rfl).1 (by decide),
   (confirm_analysis_transitions ⟨"confirm_analysis", "2024-01-02"⟩ "No" rfl).2 (by decide)⟩

/-- Claim C7: when the structured-data response fails to parse as JSON, the
analysis step still completes (no exception): it stores the locally computed
fallback structure — `current_profit = revenue − cost` of the selected day,
matching `profit_loss_status` — and records the parse failure as an entry of
the fallback's alerts list. -/
theorem oracle_parse_failure_fallback (s : AgentState) (current previous : DayRecord)
    (hstage : s.stage = "analysis")
    (hcur : BUSINESS_DATA.lookup s.selected_date = some current)
    (hprev : BUSINESS_DATA.lookup (prevDateStr s.selected_date) = some previous) :
    analyze_business s (OracleOutcome.ok none) =
      some (⟨"complete", s.selected_date⟩, some (fallbackParseJson current)) ∧
    jsonField (fallbackParseJson current) "alerts" =
      some (Json.arr [Json.str "Unable to parse LLM JSON response"]) ∧
    jsonField (fallbackParseJson current) "current_profit" =
      some (Json.num ((current.revenue - current.cost : ℤ) : ℚ)) ∧
    jsonField (fallbackParseJson current) "profit_loss_status" =
      some (Json.str (if current.revenue - current.cost > 0 then "positive" else "negative")) ∧
    jsonField (fallbackParseJson current) "recommendations" =
      some (Json.arr [Json.str "Review analysis manually"]) := by
  refine ⟨?_, rfl, rfl, rfl, rfl⟩
  simp [analyze_business, hstage, hcur, hprev, json_output]

/-- Witness for C7: date 2024-01-02 (record revenue 10000, cost 6000),
previous day 2024-01-01. -/
theorem oracle_parse_failure_fallback_witness :
    analyze_business ⟨"analysis", "2024-01-02"⟩ (OracleOutcome.ok none) =
      some (⟨"complete", "2024-01-02"⟩, some (fallbackParseJson ⟨10000, 6000, 100⟩)) ∧
    jsonField (fallbackParseJson ⟨10000, 6000, 100⟩) "alerts" =
      some (Json.arr [Json.str "Unable to parse LLM JSON response"]) ∧
    jsonField (fallbackParseJson ⟨10000, 6000, 100⟩) "current_profit" =
      some (Json.num (((10000 : ℤ) - 6000 : ℤ) : ℚ)) ∧
    jsonField (fallbackParseJson ⟨10000, 6000, 100⟩) "profit_loss_status" =
      some (Json.str (if (10000 : ℤ) - 6000 > 0 then "positive" else "negative")) ∧
    jsonField (fallbackParseJson ⟨10000, 6000, 100⟩) "recommendations" =
      some (Json.arr [Json.str "Review analysis manually"]) :=
  oracle_parse_failure_fallback ⟨"analysis", "2024-01-02"⟩ ⟨10000, 6000, 100⟩ ⟨8000, 5000, 80⟩
    rfl (by decide) (by decide)

end Chat

namespace Chat

/-- A property holding of every key of an association list holds of any key
that looks up successfully. -/
theorem lookup_key_property {α : Type} (P : String → Prop) (l : List (String × α))
    (hl : ∀ p ∈ l, P p.1) (d : String) (h : (l.lookup d).isSome = true) : P d := by
  induction l with
  | nil => simp [List.lookup] at h
  | cons p rest ih =>
    rw [List.lookup] at h
    rcases hbe : d == p.1 with _ | _
    · rw [hbe] at h
      exact ih (fun q hq => hl q (List.mem_cons_of_mem _ hq)) h
    · have heq : d = p.1 := eq_of_beq hbe
      subst heq
      exact hl p (List.mem_cons_self _ _)

/-- Every dataset key parses as a date. -/
theorem memKey_parseable (d : String) (h : memKey d = true) :
    (parseDate d).isSome = true := by
  exact lookup_key_property (fun k => (parseDate k).isSome = true) BUSINESS_DATA (by decide) d h

/-- `process_input` preserves the controller invariant. -/
theorem process_input_preserves_inv (s : AgentState) (input : String)
    (hs : ControllerInv s) : ControllerInv (process_input s input).state := by
  simp only [process_input]
  split_ifs with h1 h2 h3 h4 h5 h6 h7 h8 h9 h10
  · simp [ControllerInv]
  · simp [ControllerInv]
  · intro _
    exact ⟨h3, by simpa using h4⟩
  · simp [ControllerInv]
  · intro _
    exact hs (Or.inl h5)
  · simp [ControllerInv]
  · intro _
    exact hs (Or.inl h5)
  · simp [ControllerInv]
  · simp [ControllerInv]
  · simp [ControllerInv]
  · exact hs

/-- `analyze_business` preserves the controller invariant. -/
theorem analyze_preserves_inv (s t : AgentState) (outcome : OracleOutcome) (res : Option Json)
    (h : analyze_business s outcome = some (t, res)) (hs : ControllerInv s) :
    ControllerInv t := by
  simp only [analyze_business] at h
  split at h
  · split at h
    · obtain ⟨h1, -⟩ := Prod.mk.injEq .. ▸ Option.some.inj h
      rw [← h1]
      simp [ControllerInv]
    · exact absurd h (by simp)
  · obtain ⟨h1, -⟩ := Prod.mk.injEq .. ▸ Option.some.inj h
    rw [← h1]
    exact hs

/-- Every reachable state satisfies the controller invariant. -/
theorem reachable_controller_inv (s : AgentState) (h : Reachable s) : ControllerInv s := by
  replace h : Relation.ReflTransGen StepRel initialState s := h
  induction h with
  | refl =>
    intro hc
    rcases hc with hc | hc <;> exact absurd hc (by decide)
  | tail _hr hstep ih =>
    rcases hstep with ⟨input, rfl⟩ | ⟨outcome, res, hst⟩
    · exact process_input_preserves_inv _ input ih
    · exact analyze_preserves_inv _ _ _ _ hst ih

/-- Claim C10: in every reachable state at stage "confirm_analysis" or
"analysis", the selected date and its previous calendar day are dataset keys,
the date parses, and hence the analysis step's unguarded parse and lookups
always succeed and complete the turn. -/
theorem controller_reachable_dates_valid (s : AgentState) (hr : Reachable s)
    (hstage : s.stage = "confirm_analysis" ∨ s.stage = "analysis") :
    memKey s.selected_date = true ∧
    memKey (prevDateStr s.selected_date) = true ∧
    (parseDate s.selected_date).isSome = true ∧
    (∀ outcome : OracleOutcome, s.stage = "analysis" →
      ∃ res, analyze_business s outcome = some (⟨"complete", s.selected_date⟩, some res)) := by
  obtain ⟨h1, h2⟩ := reachable_controller_inv s hr hstage
  refine ⟨h1, h2, memKey_parseable _ h1, ?_⟩
  intro outcome hana
  obtain ⟨current, hcur⟩ := Option.isSome_iff_exists.mp h1
  obtain ⟨previous, hprev⟩ := Option.isSome_iff_exists.mp h2
  refine ⟨match outcome with
    | OracleOutcome.ok parsed => json_output parsed current
    | OracleOutcome.failed => llmFailFallbackJson current previous, ?_⟩
  simp [analyze_business, hana, hcur, hprev]

/-- Witness for C10: the state reached by greeting → selecting 2024-01-02 →
stage confirm_analysis. -/
theorem controller_reachable_dates_valid_witness :
    memKey "2024-01-02" = true ∧
    memKey (prevDateStr "2024-01-02") = true ∧
    (parseDate "2024-01-02").isSome = true ∧
    (∀ outcome : OracleOutcome, "confirm_analysis" = "analysis" →
      ∃ res, analyze_business ⟨"confirm_analysis", "2024-01-02"⟩ outcome =
        some (⟨"complete", "2024-01-02"⟩, some res)) := by
  have step1 : StepRel initialState ⟨"date_selection", ""⟩ :=
    Or.inl ⟨"", by decide⟩
  have step2 : StepRel ⟨"date_selection", ""⟩ ⟨"confirm_analysis", "2024-01-02"⟩ :=
    Or.inl ⟨"2024-01-02", by decide⟩
  exact controller_reachable_dates_valid ⟨"confirm_analysis", "2024-01-02"⟩
    (Relation.ReflTransGen.tail (Relation.ReflTransGen.tail Relation.ReflTransGen.refl step1) step2)
    (Or.inl rfl)

end Chat
